import Mathlib

/-!
Verification development for the LinkedIn Service Proposal Assistant
(`src/app.py`): a shallow embedding of its SQLite-backed request store,
its Streamlit form handlers, and its two Gemini prompt functions,
together with theorems settling the specification's claims.
-/

/-- One row of the `requests` table (src/app.py lines 21-31):
`id INTEGER PRIMARY KEY AUTOINCREMENT` plus six text columns. -/
structure Row where
  id : Nat
  client_name : String
  service_needed : String
  client_headline : String
  project_details : String
  status : String
  submitted_proposal : String
deriving Repr, DecidableEq

/-- The persistent store: the `requests` table in insertion order, plus the
next AUTOINCREMENT value (SQLite assigns `max ever used + 1`, never reusing
an id; rows carry ids strictly below `nextId`). -/
structure Store where
  nextId : Nat
  rows : List Row
deriving Repr, DecidableEq

/-- The store produced by `init_db` (lines 17-33): an empty table;
SQLite AUTOINCREMENT assigns 1 to the first inserted row. -/
def Store.init : Store := { nextId := 1, rows := [] }

/-- Embeds `load_data` (lines 35-40): `SELECT * FROM requests` into a
dataframe, i.e. every row in insertion order. -/
def load_data (s : Store) : List Row := s.rows

/-- Embeds `add_request` (lines 42-51): INSERT of the four inputs with
`status = 'Pending'` and `submitted_proposal = ''`; the id column is
filled by AUTOINCREMENT. -/
def add_request (s : Store) (name service headline details : String) : Store :=
  { nextId := s.nextId + 1
    rows := s.rows ++
      [{ id := s.nextId
         client_name := name
         service_needed := service
         client_headline := headline
         project_details := details
         status := "Pending"
         submitted_proposal := "" }] }

/-- The per-row effect of the SQL UPDATE in `update_request` (lines 57-61):
`SET` all six text columns on a row whose `id` matches `record_id`;
any other row, and the `id` column itself, are untouched. -/
def apply_update (record_id : Nat)
    (name service headline details status proposal : String) (r : Row) : Row :=
  if r.id = record_id then
    { r with
      client_name := name
      service_needed := service
      client_headline := headline
      project_details := details
      status := status
      submitted_proposal := proposal }
  else r

/-- Embeds `update_request` (lines 53-63): the UPDATE statement applied to
the whole table. -/
def update_request (s : Store) (record_id : Nat)
    (name service headline details status proposal : String) : Store :=
  { s with rows := s.rows.map (apply_update record_id name service headline details status proposal) }

/-- The condition `update_request` could signal to its caller. The spec's
error taxonomy names `NotFound` for an update whose `id` does not exist. -/
inductive StoreError where
  | notFound
deriving Repr, DecidableEq

/-- The caller-observable outcome of `update_request` (lines 53-63): the
function executes the UPDATE, commits and returns; SQLite's UPDATE succeeds
even when zero rows match and the code never inspects the rowcount, so the
outcome is `Except.ok` on every input. -/
def update_request_result (s : Store) (record_id : Nat)
    (name service headline details status proposal : String) :
    Except StoreError Store :=
  Except.ok (update_request s record_id name service headline details status proposal)

/-- Embeds the new-request form submit handler (lines 189-195):
`if not all([client_name, service_needed, project_details])` shows a
warning and performs nothing; otherwise `add_request` runs. A Python
string is falsy exactly when it is empty. -/
def new_request_submit (s : Store)
    (client_name service_needed client_headline project_details : String) :
    Except String Store :=
  if client_name = "" ∨ service_needed = "" ∨ project_details = "" then
    Except.error "Please fill out all required fields."
  else
    Except.ok (add_request s client_name service_needed client_headline project_details)

/-- The store as it stands after a submit attempt: unchanged when the
handler rejected, the handler's result otherwise. -/
def new_request_submit_post (s : Store)
    (client_name service_needed client_headline project_details : String) : Store :=
  match new_request_submit s client_name service_needed client_headline project_details with
  | Except.ok s' => s'
  | Except.error _ => s

/-- Embeds the record lookup of the edit section (line 285):
`requests_df[requests_df['id'] == record_to_edit_id].iloc[0]`, the first
row whose id matches. -/
def get_request (df : List Row) (record_id : Nat) : Option Row :=
  df.find? (fun r => r.id == record_id)

/-- The ids present in the store, in row order. -/
def storeIds (s : Store) : List Nat := s.rows.map Row.id

/-- Embeds `MY_NAME` (line 79). -/
def MY_NAME : String := "Islam Khairy"

/-- Embeds `MY_HEADLINE` (line 80). -/
def MY_HEADLINE : String :=
  "Passionate Solopreneur | Mechanical BIM/VDC Engineer | Contech & Entrepreneurship Enthusiast | Career Development Coach & Startup Mentor"

/-- Embeds `MY_EXPERIENCE_SUMMARY` (lines 81-87), a triple-quoted string
whose first four lines end in a trailing blank before the newline. -/
def MY_EXPERIENCE_SUMMARY : String :=
  "\nWith 4+ years of experience mentoring over 1,500 trainees, I specialize in Career Coaching, \nInterview Preparation, Resume Writing, and Training. I have a proven track record of helping \nprofessionals refine their career paths, optimize their resumes to get past ATS, and confidently \nace interviews. My unique background in Engineering Design also allows me to offer specialized \nmentorship to technical professionals.\n"

/-- Embeds `MY_SERVICES` (lines 88-94): the insertion-ordered mapping of
service name to one-sentence description. -/
def MY_SERVICES : List (String × String) :=
  [("Resume Writing", "I craft compelling, ATS-optimized resumes from scratch that highlight a client\x27s key achievements and skills."),
   ("Resume Review", "I analyze and provide detailed feedback to transform a resume into a powerful marketing document that gets noticed."),
   ("Interview Preparation", "I conduct realistic mock interviews and provide actionable feedback to help clients walk into any interview with confidence and leave with an offer."),
   ("Career Development Coaching", "I help clients gain clarity on their career goals and create a strategic roadmap for advancement."),
   ("Training", "I offer customized training sessions on career-related topics.")]

/-- The text Python interpolates for `{MY_SERVICES}` in the prompt f-string
(line 115): `str` of the dict, single-quoted except the first value, which
contains an apostrophe and is therefore double-quoted by `repr`. -/
def MY_SERVICES_STR : String :=
  "\x7b\x27Resume Writing\x27: \"I craft compelling, ATS-optimized resumes from scratch that highlight a client\x27s key achievements and skills.\", \x27Resume Review\x27: \x27I analyze and provide detailed feedback to transform a resume into a powerful marketing document that gets noticed.\x27, \x27Interview Preparation\x27: \x27I conduct realistic mock interviews and provide actionable feedback to help clients walk into any interview with confidence and leave with an offer.\x27, \x27Career Development Coaching\x27: \x27I help clients gain clarity on their career goals and create a strategic roadmap for advancement.\x27, \x27Training\x27: \x27I offer customized training sessions on career-related topics.\x27\x7d"

/-- Embeds the instruction f-string of `generate_proposal` (lines 112-132),
with each interpolation spliced in place. -/
def proposal_prompt
    (client_name service_needed client_headline project_details : String) : String :=
  "\n    You are " ++ MY_NAME ++
  ", a professional and empathetic Career Coach with the following headline: \"" ++ MY_HEADLINE ++
  "\".\n    Your experience is: " ++ MY_EXPERIENCE_SUMMARY ++
  "\n    Your available services are: " ++ MY_SERVICES_STR ++
  "\n\n    A potential client, \x27" ++ client_name ++
  "\x27, has reached out for help.\n    Their professional headline is: \"" ++ client_headline ++
  "\".\n    They are interested in the service: \"" ++ service_needed ++
  "\".\n    Here are the details of their request: \"" ++ project_details ++
  "\".\n\n    Based on all of this information, write a personalized, confident, and encouraging proposal to \x27" ++ client_name ++
  "\x27.\n\n    Follow this structure:\n    1.  **Greeting:** Start with a warm, personalized greeting (e.g., \"Hi " ++ client_name ++
  ",\").\n    2.  **Acknowledge and Validate:** Acknowledge their request and show you understand their situation based on their project details and headline. Connect their need to your expertise.\n    3.  **Propose a Solution:** Briefly explain HOW you will help them using the specific service they requested (\x27" ++ service_needed ++
  "\x27). Mention the tangible outcomes they can expect.\n    4.  **Establish Credibility:** Subtly weave in your experience (e.g., \"Having helped over 1,500 professionals...\").\n    5.  **Call to Action:** End with a clear next step. Suggest a brief, complimentary call to discuss their goals in more detail.\n\n    IMPORTANT: The entire proposal must be concise and professional. Keep the total length under 1500 characters.\n    "

/-- Embeds Python `str.strip()` as used at lines 136 and 162: the string
with leading and trailing whitespace removed. -/
def pyStrip (s : String) : String :=
  { data := ((s.data.dropWhile Char.isWhitespace).reverse.dropWhile Char.isWhitespace).reverse }

/-- Embeds `generate_proposal` (lines 105-140). The external Gemini call is
an oracle `remote : String → Option String` mapping the rendered prompt to
the response text, `none` standing for a raised exception. An absent key
(`if not google_api_key`, falsy exactly on the empty string) or a failed
call yields `None`; success yields `response.text.strip()`. -/
def generate_proposal (google_api_key : String) (remote : String → Option String)
    (client_name service_needed client_headline project_details : String) :
    Option String :=
  if google_api_key = "" then none
  else
    match remote (proposal_prompt client_name service_needed client_headline project_details) with
    | some response_text => some (pyStrip response_text)
    | none => none

/-- Embeds the instruction f-string of `enhance_proposal` (lines 149-158);
the first line ends in a trailing blank before its newline. -/
def enhance_prompt (proposal_text : String) : String :=
  "\n    Please review the following client proposal. Enhance it by making it more persuasive, confident, and concise. \n    Ensure it clearly communicates the value proposition and ends with a strong call to action.\n    IMPORTANT: The final enhanced proposal must not exceed 1500 characters.\n\n    Original Proposal:\n    ---\n    " ++
  proposal_text ++
  "\n    ---\n    "

/-- Embeds `enhance_proposal` (lines 142-165): with the key missing it
returns `proposal_text`; on a successful call it returns
`response.text.strip()`; on an exception it returns `proposal_text`. -/
def enhance_proposal (google_api_key : String) (remote : String → Option String)
    (proposal_text : String) : String :=
  if google_api_key = "" then proposal_text
  else
    match remote (enhance_prompt proposal_text) with
    | some response_text => pyStrip response_text
    | none => proposal_text

/-- Embeds line 201: `pending_requests = requests_df[requests_df['status'] == 'Pending']`. -/
def pending_requests (requests_df : List Row) : List Row :=
  requests_df.filter (fun r => r.status == "Pending")

/-- Embeds the options of the generate-proposal selectbox (lines 203-206):
`pending_requests["Client Name"].tolist()`. -/
def generate_selection_options (requests_df : List Row) : List String :=
  (pending_requests requests_df).map Row.client_name

/-- Embeds the options of the record-editor selectbox (lines 277-282):
`options=requests_df['id']`, every id regardless of status. -/
def edit_record_options (requests_df : List Row) : List Nat :=
  requests_df.map Row.id

/-- One row of the in-memory session dataframe created at line 99, whose
columns are "Client Name", "Service Needed", "Client Headline",
"Project Details", "Status", "Submitted Proposal". -/
structure DisplayRow where
  clientName : String
  serviceNeeded : String
  clientHeadline : String
  projectDetails : String
  status : String
  submittedProposal : String
deriving Repr, DecidableEq

/-- The Streamlit session state: the keys the script ever touches.
`requests_df` and `generated_proposal` are set at lines 98-101;
`proposal_text` is created lazily at lines 210-211. -/
structure SessionState where
  requests_df : List DisplayRow
  generated_proposal : String
  proposal_text : Option String
deriving Repr, DecidableEq

/-- The session state after the initialization block (lines 96-101):
`requests_df` is a DataFrame with the six display columns and no rows,
`generated_proposal` is the empty string, `proposal_text` is not yet set. -/
def session_init : SessionState :=
  { requests_df := [], generated_proposal := "", proposal_text := none }

/-- The script actions that write to `st.session_state`, each carrying the
data its handler would use. `generateResult` carries the value returned by
`generate_proposal` (line 214); `enhanceResult` carries the value returned
by `enhance_proposal` (line 235); `formSubmit` and `editSave` only touch
the database, never the session state. -/
inductive UIEvent where
  | formSubmit (name service headline details : String)
  | initProposalText
  | generateResult (proposal : Option String)
  | enhanceResult (text : String)
  | markContacted
  | editSave (record_id : Nat) (name service headline details status proposal : String)
deriving Repr, DecidableEq

/-- The effect of each action on the session state, read off the script:
line 211 sets `proposal_text` to "" when absent; line 221 stores a truthy
generated proposal; line 235 stores the enhanced text; line 257 clears
`generated_proposal`. No action assigns `st.session_state.requests_df`. -/
def session_step (ss : SessionState) : UIEvent → SessionState
  | UIEvent.formSubmit _ _ _ _ => ss
  | UIEvent.initProposalText =>
      match ss.proposal_text with
      | none => { ss with proposal_text := some "" }
      | some _ => ss
  | UIEvent.generateResult p =>
      match p with
      | some t => if t = "" then ss else { ss with generated_proposal := t }
      | none => ss
  | UIEvent.enhanceResult t => { ss with generated_proposal := t }
  | UIEvent.markContacted => { ss with generated_proposal := "" }
  | UIEvent.editSave _ _ _ _ _ _ _ => ss

/-- Embeds the Step 2 gate (line 199):
`if not st.session_state.requests_df.empty` guards the pending-record
selector and the generate button. -/
def step2_selector_shown (ss : SessionState) : Bool :=
  !ss.requests_df.isEmpty

/-- Embeds the dashboard (lines 266-269): `st.dataframe` renders
`st.session_state.requests_df` when it is nonempty, otherwise only an info
message is shown and no records are displayed. -/
def dashboard_rows (ss : SessionState) : List DisplayRow :=
  if ss.requests_df.isEmpty then [] else ss.requests_df

/-- The store operations the app performs, for reasoning about whole
interaction histories: `create` is `add_request` via the submit handler,
`update` is `update_request`, `list` is `load_data` (read-only). -/
inductive StoreOp where
  | create (name service headline details : String)
  | update (record_id : Nat) (name service headline details status proposal : String)
  | list
deriving Repr, DecidableEq

/-- The state transition of each store operation. -/
def applyOp (s : Store) : StoreOp → Store
  | StoreOp.create name service headline details =>
      add_request s name service headline details
  | StoreOp.update record_id name service headline details status proposal =>
      update_request s record_id name service headline details status proposal
  | StoreOp.list => s

/-- The store reached by running a history of operations from the store
`init_db` leaves behind. -/
def runOps (ops : List StoreOp) : Store :=
  ops.foldl applyOp Store.init

lemma apply_update_id_eq (record_id : Nat) (n sv hl d st pr : String) (r : Row) :
    (apply_update record_id n sv hl d st pr r).id = r.id := by
  unfold apply_update
  split <;> rfl

lemma apply_update_of_ne (record_id : Nat) (n sv hl d st pr : String) (r : Row)
    (h : r.id ≠ record_id) :
    apply_update record_id n sv hl d st pr r = r := by
  unfold apply_update
  rw [if_neg h]

/-- C1: a valid create (non-empty name, service, details) is accepted and the
store afterwards is the old store with exactly one appended row carrying the
four inputs, status "Pending" and empty submitted_proposal; all previous rows
are untouched and the new row is visible to a subsequent `load_data`. -/
theorem create_valid_appends_pending_row (s : Store) (n sv hl d : String)
    (hn : n ≠ "") (hsv : sv ≠ "") (hd : d ≠ "") :
    new_request_submit s n sv hl d = Except.ok (add_request s n sv hl d) ∧
    load_data (add_request s n sv hl d) =
      load_data s ++
        [{ id := s.nextId
           client_name := n
           service_needed := sv
           client_headline := hl
           project_details := d
           status := "Pending"
           submitted_proposal := "" }] := by
  constructor
  · unfold new_request_submit
    rw [if_neg]
    intro hor
    rcases hor with h | h | h
    · exact hn h
    · exact hsv h
    · exact hd h
  · rfl

theorem create_valid_appends_pending_row_witness :
    new_request_submit Store.init "Ada" "Resume Writing" "Engineer" "Need new resume" =
      Except.ok (add_request Store.init "Ada" "Resume Writing" "Engineer" "Need new resume") ∧
    load_data (add_request Store.init "Ada" "Resume Writing" "Engineer" "Need new resume") =
      load_data Store.init ++
        [{ id := 1
           client_name := "Ada"
           service_needed := "Resume Writing"
           client_headline := "Engineer"
           project_details := "Need new resume"
           status := "Pending"
           submitted_proposal := "" }] :=
  create_valid_appends_pending_row Store.init "Ada" "Resume Writing" "Engineer" "Need new resume"
    (by decide) (by decide) (by decide)

/-- C2: a create attempt with an empty client name, service, or project
details is rejected with the validation warning, no row is inserted, and the
store's row count is unchanged. -/
theorem create_invalid_rejected (s : Store) (n sv hl d : String)
    (h0 : n = "" ∨ sv = "" ∨ d = "") :
    new_request_submit s n sv hl d =
      Except.error "Please fill out all required fields." ∧
    new_request_submit_post s n sv hl d = s ∧
    (load_data (new_request_submit_post s n sv hl d)).length =
      (load_data s).length := by
  have h1 : new_request_submit s n sv hl d =
      Except.error "Please fill out all required fields." := by
    unfold new_request_submit
    rw [if_pos h0]
  refine ⟨h1, ?_, ?_⟩
  · unfold new_request_submit_post
    rw [h1]
  · unfold new_request_submit_post
    rw [h1]

theorem create_invalid_rejected_witness :
    new_request_submit Store.init "" "Resume Writing" "Engineer" "Need new resume" =
      Except.error "Please fill out all required fields." ∧
    new_request_submit_post Store.init "" "Resume Writing" "Engineer" "Need new resume" =
      Store.init ∧
    (load_data (new_request_submit_post Store.init "" "Resume Writing" "Engineer" "Need new resume")).length =
      (load_data Store.init).length :=
  create_invalid_rejected Store.init "" "Resume Writing" "Engineer" "Need new resume"
    (Or.inl rfl)

/-- C4 counterexample: updating an id that is absent from the store does not
signal NotFound — on the empty store with id 5 the call reports plain
success, returning the store unchanged. -/
theorem update_missing_id_counterexample :
    update_request_result { nextId := 1, rows := [] } 5 "a" "b" "c" "d" "e" "f" ≠
      Except.error StoreError.notFound ∧
    update_request_result { nextId := 1, rows := [] } 5 "a" "b" "c" "d" "e" "f" =
      Except.ok { nextId := 1, rows := [] } := by
  constructor
  · exact fun h => Except.noConfusion h
  · rfl

/-- C4 amended: updating a nonexistent id changes no row — the store is
returned identical — but no NotFound condition is signaled: the code never
inspects the UPDATE rowcount, so the call completes as a silent successful
no-op. -/
theorem update_missing_id_silent_noop (s : Store) (record_id : Nat)
    (n sv hl d st pr : String) (habs : ∀ r ∈ s.rows, r.id ≠ record_id) :
    update_request_result s record_id n sv hl d st pr = Except.ok s := by
  unfold update_request_result update_request
  have hmap : s.rows.map (apply_update record_id n sv hl d st pr) = s.rows := by
    have h1 : s.rows.map (apply_update record_id n sv hl d st pr) = s.rows.map id :=
      List.map_congr_left (fun r hr => apply_update_of_ne record_id n sv hl d st pr r (habs r hr))
    rw [h1, List.map_id]
  rw [hmap]

theorem update_missing_id_silent_noop_witness :
    update_request_result
      { nextId := 2
        rows := [{ id := 1
                   client_name := "Ada"
                   service_needed := "Resume Writing"
                   client_headline := "Engineer"
                   project_details := "Need new resume"
                   status := "Pending"
                   submitted_proposal := "" }] }
      5 "a" "b" "c" "d" "e" "f" =
    Except.ok
      { nextId := 2
        rows := [{ id := 1
                   client_name := "Ada"
                   service_needed := "Resume Writing"
                   client_headline := "Engineer"
                   project_details := "Need new resume"
                   status := "Pending"
                   submitted_proposal := "" }] } :=
  update_missing_id_silent_noop _ 5 "a" "b" "c" "d" "e" "f" (by decide)

/-- C5: on any failure — missing credential or a remote exception — the
refinement operation returns its input text unchanged. -/
theorem enhance_failure_returns_input (key : String) (remote : String → Option String)
    (t : String) (hfail : key = "" ∨ remote (enhance_prompt t) = none) :
    enhance_proposal key remote t = t := by
  unfold enhance_proposal
  rcases hfail with hk | hr
  · rw [if_pos hk]
  · by_cases hk : key = ""
    · rw [if_pos hk]
    · rw [if_neg hk, hr]

theorem enhance_failure_returns_input_witness :
    enhance_proposal "k" (fun _ => none) "Hello Ada" = "Hello Ada" :=
  enhance_failure_returns_input "k" (fun _ => none) "Hello Ada" (Or.inr rfl)

lemma find?_map_apply_update (rows : List Row) (record_id : Nat)
    (n sv hl d st pr : String) (hmem : record_id ∈ rows.map Row.id) :
    (rows.map (apply_update record_id n sv hl d st pr)).find?
        (fun r => r.id == record_id) =
      some { id := record_id
             client_name := n
             service_needed := sv
             client_headline := hl
             project_details := d
             status := st
             submitted_proposal := pr } := by
  induction rows with
  | nil => simp at hmem
  | cons r rs ih =>
    by_cases hr : r.id = record_id
    · have h1 : apply_update record_id n sv hl d st pr r =
          { id := record_id
            client_name := n
            service_needed := sv
            client_headline := hl
            project_details := d
            status := st
            submitted_proposal := pr } := by
        unfold apply_update
        rw [if_pos hr]
        cases r
        simp only at hr
        rw [hr]
      rw [List.map_cons, h1, List.find?_cons_of_pos]
      simp
    · have h2 : apply_update record_id n sv hl d st pr r = r :=
        apply_update_of_ne record_id n sv hl d st pr r hr
      have h3 : record_id ∈ rs.map Row.id := by
        rw [List.map_cons] at hmem
        rcases List.mem_cons.mp hmem with h | h
        · exact absurd h.symm hr
        · exact h
      rw [List.map_cons, h2, List.find?_cons_of_neg]
      · exact ih h3
      · simp [hr]

/-- C3: updating an id that exists in the store and then reading that id back
through the edit-section lookup returns exactly the six field values passed
to the update, with the id itself as key — full-row replacement. -/
theorem update_then_read_returns_values (s : Store) (record_id : Nat)
    (n sv hl d st pr : String) (hmem : record_id ∈ storeIds s) :
    get_request (load_data (update_request s record_id n sv hl d st pr)) record_id =
      some { id := record_id
             client_name := n
             service_needed := sv
             client_headline := hl
             project_details := d
             status := st
             submitted_proposal := pr } :=
  find?_map_apply_update s.rows record_id n sv hl d st pr hmem

theorem update_then_read_returns_values_witness :
    get_request
      (load_data
        (update_request
          { nextId := 2
            rows := [{ id := 1
                       client_name := "Ada"
                       service_needed := "Resume Writing"
                       client_headline := "Engineer"
                       project_details := "Need new resume"
                       status := "Pending"
                       submitted_proposal := "" }] }
          1 "Bob" "Training" "Coach" "Prep" "Contacted" "DRAFT v2"))
      1 =
    some { id := 1
           client_name := "Bob"
           service_needed := "Training"
           client_headline := "Coach"
           project_details := "Prep"
           status := "Contacted"
           submitted_proposal := "DRAFT v2" } :=
  update_then_read_returns_values _ 1 "Bob" "Training" "Coach" "Prep" "Contacted" "DRAFT v2"
    (by decide)

/-- C9: the update is framed to the row whose id matches — the table keeps
its length, every row keeps its id (the id column is immutable), and any row
whose id differs from the update key is byte-for-byte unchanged in place. -/
theorem update_frames_other_rows (s : Store) (record_id : Nat)
    (n sv hl d st pr : String) :
    (update_request s record_id n sv hl d st pr).rows.length = s.rows.length ∧
    (∀ k : Nat,
      ((update_request s record_id n sv hl d st pr).rows[k]?).map Row.id =
        (s.rows[k]?).map Row.id) ∧
    (∀ k : Nat, ∀ r : Row, s.rows[k]? = some r → r.id ≠ record_id →
      (update_request s record_id n sv hl d st pr).rows[k]? = some r) := by
  refine ⟨by simp [update_request], ?_, ?_⟩
  · intro k
    rw [update_request]
    simp only [List.getElem?_map]
    cases s.rows[k]? with
    | none => rfl
    | some r => simp [apply_update_id_eq]
  · intro k r hk hne
    rw [update_request]
    simp [List.getElem?_map, hk,
      apply_update_of_ne record_id n sv hl d st pr r hne]

theorem update_frames_other_rows_witness :
    (update_request
      { nextId := 3
        rows := [{ id := 1
                   client_name := "Ada"
                   service_needed := "Resume Writing"
                   client_headline := "Engineer"
                   project_details := "Need new resume"
                   status := "Pending"
                   submitted_proposal := "" },
                 { id := 2
                   client_name := "Bob"
                   service_needed := "Training"
                   client_headline := "Coach"
                   project_details := "Prep"
                   status := "Pending"
                   submitted_proposal := "" }] }
      1 "Ada2" "Resume Review" "Eng" "Details" "Contacted" "P").rows[1]? =
    some { id := 2
           client_name := "Bob"
           service_needed := "Training"
           client_headline := "Coach"
           project_details := "Prep"
           status := "Pending"
           submitted_proposal := "" } :=
  (update_frames_other_rows _ 1 "Ada2" "Resume Review" "Eng" "Details" "Contacted" "P").2.2
    1 _ (by decide) (by decide)

/-- C8: the generate-draft selection is drawn from exactly the rows whose
status is "Pending" — a row is in `pending_requests` iff it is a stored row
with that status — while the record-editor selector offers every stored
row's id regardless of status. -/
theorem pending_selection_exactly_pending (requests_df : List Row) :
    (∀ r : Row, r ∈ pending_requests requests_df ↔
        r ∈ requests_df ∧ r.status = "Pending") ∧
    (∀ r : Row, r ∈ requests_df → r.id ∈ edit_record_options requests_df) := by
  constructor
  · intro r
    simp [pending_requests, List.mem_filter]
  · intro r hr
    simp only [edit_record_options, List.mem_map]
    exact ⟨r, hr, rfl⟩

theorem pending_selection_exactly_pending_witness :
    ({ id := 2
       client_name := "Bob"
       service_needed := "Training"
       client_headline := "Coach"
       project_details := "Prep"
       status := "Contacted"
       submitted_proposal := "D" } : Row).id ∈
      edit_record_options
        [{ id := 1
           client_name := "Ada"
           service_needed := "Resume Writing"
           client_headline := "Engineer"
           project_details := "Need new resume"
           status := "Pending"
           submitted_proposal := "" },
         { id := 2
           client_name := "Bob"
           service_needed := "Training"
           client_headline := "Coach"
           project_details := "Prep"
           status := "Contacted"
           submitted_proposal := "D" }] :=
  (pending_selection_exactly_pending _).2 _ (by decide)

lemma storeIds_update (s : Store) (record_id : Nat) (n sv hl d st pr : String) :
    storeIds (update_request s record_id n sv hl d st pr) = storeIds s := by
  unfold storeIds update_request
  rw [List.map_map]
  exact List.map_congr_left (fun r _ => apply_update_id_eq record_id n sv hl d st pr r)

lemma storeIds_add (s : Store) (n sv hl d : String) :
    storeIds (add_request s n sv hl d) = storeIds s ++ [s.nextId] := by
  unfold storeIds add_request
  rw [List.map_append]
  rfl

/-- The AUTOINCREMENT invariant: every id in the table is strictly below the
next value the engine will assign. -/
def idsBelowNext (s : Store) : Prop := ∀ i ∈ storeIds s, i < s.nextId

lemma idsBelowNext_applyOp (s : Store) (op : StoreOp) (h : idsBelowNext s) :
    idsBelowNext (applyOp s op) := by
  cases op with
  | create n sv hl d =>
    intro i hi
    rw [applyOp, storeIds_add] at hi
    rcases List.mem_append.mp hi with h1 | h1
    · exact Nat.lt_succ_of_lt (h i h1)
    · rw [List.mem_singleton.mp h1]
      exact Nat.lt_succ_self _
  | update record_id n sv hl d st pr =>
    intro i hi
    rw [applyOp, storeIds_update] at hi
    exact h i hi
  | list => exact h

lemma idsBelowNext_runOps (ops : List StoreOp) : idsBelowNext (runOps ops) := by
  suffices hgen : ∀ (l : List StoreOp) (s : Store),
      idsBelowNext s → idsBelowNext (l.foldl applyOp s) by
    refine hgen ops Store.init ?_
    intro i hi
    simp [storeIds, Store.init] at hi
  intro l
  induction l with
  | nil => exact fun s hs => hs
  | cons op l ih => exact fun s hs => ih _ (idsBelowNext_applyOp s op hs)

/-- C7: over any interaction history — no operation deletes a record and ids
are never reused: every id present before an operation is present after it,
the row count never decreases, every id already assigned is strictly below
the store's next AUTOINCREMENT value, and a create appends exactly one row
carrying that fresh value (hence an id distinct from every id ever
assigned, since assigned ids persist and sit strictly below it). -/
theorem store_rows_persist_and_ids_fresh (ops : List StoreOp) (op : StoreOp) :
    (∀ i ∈ storeIds (runOps ops), i ∈ storeIds (applyOp (runOps ops) op)) ∧
    (storeIds (runOps ops)).length ≤ (storeIds (applyOp (runOps ops) op)).length ∧
    (∀ i ∈ storeIds (runOps ops), i < (runOps ops).nextId) ∧
    (∀ n sv hl d, storeIds (applyOp (runOps ops) (StoreOp.create n sv hl d)) =
        storeIds (runOps ops) ++ [(runOps ops).nextId]) := by
  refine ⟨?_, ?_, idsBelowNext_runOps ops, ?_⟩
  · intro i hi
    cases op with
    | create n sv hl d =>
      rw [applyOp, storeIds_add]
      exact List.mem_append.mpr (Or.inl hi)
    | update record_id n sv hl d st pr =>
      rw [applyOp, storeIds_update]
      exact hi
    | list => exact hi
  · cases op with
    | create n sv hl d =>
      rw [applyOp, storeIds_add, List.length_append]
      exact Nat.le_add_right _ _
    | update record_id n sv hl d st pr =>
      rw [applyOp, storeIds_update]
    | list => exact Nat.le_refl _
  · intro n sv hl d
    rw [applyOp, storeIds_add]

theorem store_rows_persist_and_ids_fresh_witness :
    1 ∈ storeIds (runOps [StoreOp.create "Ada" "Resume Writing" "Engineer" "Need new resume"]) ∧
    1 ∈ storeIds
        (applyOp (runOps [StoreOp.create "Ada" "Resume Writing" "Engineer" "Need new resume"])
          (StoreOp.create "Bob" "Training" "Coach" "Prep")) ∧
    1 < (runOps [StoreOp.create "Ada" "Resume Writing" "Engineer" "Need new resume"]).nextId := by
  refine ⟨by decide, ?_, ?_⟩
  · exact (store_rows_persist_and_ids_fresh
      [StoreOp.create "Ada" "Resume Writing" "Engineer" "Need new resume"]
      (StoreOp.create "Bob" "Training" "Coach" "Prep")).1 1 (by decide)
  · exact (store_rows_persist_and_ids_fresh
      [StoreOp.create "Ada" "Resume Writing" "Engineer" "Need new resume"]
      StoreOp.list).2.2.1 1 (by decide)

lemma session_step_requests_df (ss : SessionState) (e : UIEvent) :
    (session_step ss e).requests_df = ss.requests_df := by
  cases e with
  | formSubmit n sv hl d => rfl
  | initProposalText =>
    cases hpt : ss.proposal_text with
    | none => simp [session_step, hpt]
    | some t => simp [session_step, hpt]
  | generateResult p =>
    cases p with
    | none => simp [session_step]
    | some t =>
      by_cases ht : t = "" <;> simp [session_step, ht]
  | enhanceResult t => rfl
  | markContacted => rfl
  | editSave record_id n sv hl d st pr => rfl

/-- C10: `st.session_state.requests_df` is initialized empty and no script
action ever assigns it, so after any sequence of user actions — whatever the
database holds — the session dataframe is still empty, the Step 2
pending-record selector and generate button are never shown, and the
dashboard displays no records. -/
theorem session_df_stays_empty_gates_closed (events : List UIEvent) :
    (events.foldl session_step session_init).requests_df = [] ∧
    step2_selector_shown (events.foldl session_step session_init) = false ∧
    dashboard_rows (events.foldl session_step session_init) = [] := by
  have hdf : (events.foldl session_step session_init).requests_df = [] := by
    suffices hgen : ∀ (l : List UIEvent) (ss : SessionState),
        (l.foldl session_step ss).requests_df = ss.requests_df by
      rw [hgen]
      rfl
    intro l
    induction l with
    | nil => exact fun ss => rfl
    | cons e l ih =>
      intro ss
      rw [List.foldl_cons, ih, session_step_requests_df]
  refine ⟨hdf, ?_, ?_⟩
  · rw [step2_selector_shown, hdf]
    rfl
  · rw [dashboard_rows, hdf]
    rfl

/-- `pat` occurs as a contiguous literal substring of `s`. -/
def ContainsStr (s pat : String) : Prop :=
  ∃ u v : List Char, s.data = u ++ pat.data ++ v

lemma string_data_append (a b : String) : (a ++ b).data = a.data ++ b.data := by
  cases a
  cases b
  rfl

lemma containsStr_self (s : String) : ContainsStr s s :=
  ⟨[], [], by simp⟩

lemma containsStr_left (a b pat : String) (h : ContainsStr a pat) :
    ContainsStr (a ++ b) pat := by
  obtain ⟨u, v, hu⟩ := h
  exact ⟨u, v ++ b.data, by rw [string_data_append, hu, List.append_assoc, List.append_assoc]⟩

lemma containsStr_right (a b pat : String) (h : ContainsStr b pat) :
    ContainsStr (a ++ b) pat := by
  obtain ⟨u, v, hu⟩ := h
  exact ⟨a.data ++ u, v, by rw [string_data_append, hu]; simp [List.append_assoc]⟩

/-- C6 counterexample: a successful remote call whose response text is empty
makes `generate_proposal` return the empty string — so the result of a
successful call is not in general non-empty text. -/
theorem generate_success_empty_counterexample :
    generate_proposal "k" (fun _ => some "") "Ada" "Resume Writing" "Engineer" "Need new resume" =
      some "" ∧
    ("" : String).isEmpty = true := by
  constructor
  · decide
  · rfl

/-- C6 amended: the rendered instruction text contains the client's name,
the requested service, and the author's configured name as literal
substrings, and a successful call returns the trimmed response text (which
may be empty when the response itself is empty or whitespace). -/
theorem proposal_prompt_contains_fields
    (client_name service_needed client_headline project_details : String) :
    ContainsStr (proposal_prompt client_name service_needed client_headline project_details)
      client_name ∧
    ContainsStr (proposal_prompt client_name service_needed client_headline project_details)
      service_needed ∧
    ContainsStr (proposal_prompt client_name service_needed client_headline project_details)
      MY_NAME ∧
    (∀ (key : String) (remote : String → Option String) (resp : String),
      key ≠ "" →
      remote (proposal_prompt client_name service_needed client_headline project_details) =
        some resp →
      generate_proposal key remote client_name service_needed client_headline project_details =
        some (pyStrip resp)) := by
  refine ⟨?_, ?_, ?_, ?_⟩
  · rw [proposal_prompt]
    iterate 3 apply containsStr_left
    exact containsStr_right _ _ _ (containsStr_self _)
  · rw [proposal_prompt]
    apply containsStr_left
    exact containsStr_right _ _ _ (containsStr_self _)
  · rw [proposal_prompt]
    iterate 21 apply containsStr_left
    exact containsStr_right _ _ _ (containsStr_self _)
  · intro key remote resp hkey hremote
    rw [generate_proposal, if_neg hkey, hremote]

theorem proposal_prompt_contains_fields_witness :
    generate_proposal "k" (fun _ => some " DRAFT ") "Ada" "Resume Writing" "Engineer"
        "Need new resume" =
      some (pyStrip " DRAFT ") ∧
    pyStrip " DRAFT " = "DRAFT" := by
  constructor
  · exact (proposal_prompt_contains_fields "Ada" "Resume Writing" "Engineer"
      "Need new resume").2.2.2 "k" (fun _ => some " DRAFT ") " DRAFT " (by decide) rfl
  · decide
